import Mathlib

/-!
Shallow embedding of the PhoneListGenerator repository and proofs about its
chunk planner, chunk formatter, progress store, interrupt handling, worker
result handling and output-file setup.  The repository consists of three
near-identical Python scripts: `PhoneListGenerator2.py` (suffix `_v2` below),
`PhoneListGenerator3.py` (marker-prefixed output, unsuffixed names below for
the shared logic) and `Phonenumber.py` (plain-digit output; its
`task_generator` and `load_progress` are identical to `PhoneListGenerator3.py`).
Pure fragments become Lean functions; the controller loop and the SIGINT
handler become a step function on an explicit state; the file system and the
progress file become explicit values.
-/

namespace PhoneList

/-- Upper bound of the per-area-code numeric space: the literal `10_000_000`
used by `range(start_from, 10_000_000, chunk_size)` in all three scripts. -/
def LIMIT : Nat := 10000000

/-- Model of Python `range(start, stop, step)` for a positive `step`:
the arithmetic sequence `start, start+step, ...` of all values below `stop`.
Python raises for `step = 0`; this model returns `[]` there and is only ever
used with positive steps. -/
def pyRange (start stop step : Nat) : List Nat :=
  (List.range ((stop - start + (step - 1)) / step)).map (fun i => start + i * step)

/-- Model of the Python format expression `f"{i:07d}"`: the decimal
representation of `i`, left-padded with `'0'` to at least 7 characters. -/
def pad7 (i : Nat) : String :=
  String.mk (List.replicate (7 - (Nat.repr i).length) '0') ++ Nat.repr i

/-- One chunk task, the tuple `(area_code, country_code, start, end, output_file)`
yielded by `task_generator` (the Python `end` field is called `stop` here). -/
structure Task where
  area_code : String
  country_code : String
  start : Nat
  stop : Nat
  outfile : String
deriving DecidableEq

/-- Embedding of `task_generator` (PhoneListGenerator3.py lines 124-129,
Phonenumber.py lines 127-131): for each area code, for each
`start in range(start_from, 10_000_000, chunk_size)`, yield the task with
`end = min(start + chunk_size, 10_000_000)`. -/
def task_generator (country_code : String) (area_codes : List String)
    (start_from chunk_size : Nat) (outfile : String) : List Task :=
  area_codes.flatMap (fun area_code =>
    (pyRange start_from LIMIT chunk_size).map (fun start =>
      { area_code := area_code, country_code := country_code, start := start,
        stop := min (start + chunk_size) LIMIT, outfile := outfile }))

/-- The `(start, end)` boundary pairs that `task_generator` produces for one
area code. -/
def chunksOf (start_from chunk_size : Nat) : List (Nat × Nat) :=
  (pyRange start_from LIMIT chunk_size).map
    (fun s => (s, min (s + chunk_size) LIMIT))

/-- Embedding of `generate_chunk` from Phonenumber.py lines 119-125 (no
leading marker): the list of lines the task appends to its output file,
`f"{country_code}{area_code}{i:07d}\n"` for `i in range(start, end)`. -/
def generate_chunk (t : Task) : List String :=
  (pyRange t.start t.stop 1).map
    (fun i => t.country_code ++ t.area_code ++ pad7 i ++ "\n")

/-- Embedding of `generate_chunk` from PhoneListGenerator3.py lines 117-122
(and `generate_and_write_chunk` from PhoneListGenerator2.py lines 22-27):
identical to the plain variant but with a leading `"+"` marker. -/
def generate_chunk_marker (t : Task) : List String :=
  (pyRange t.start t.stop 1).map
    (fun i => "+" ++ t.country_code ++ t.area_code ++ pad7 i ++ "\n")

/-- All lines appended for one area code over a whole run, chunk by chunk in
planner order, for an arbitrary per-number formatter `fmt`. -/
def chunkLines (fmt : Nat → String) (start_from chunk_size : Nat) : List String :=
  (chunksOf start_from chunk_size).flatMap (fun c => (pyRange c.1 c.2 1).map fmt)

/-- All lines appended for one area code over a whole run of the
Phonenumber.py variant. -/
def linesFor (country_code area_code : String) (start_from chunk_size : Nat) :
    List String :=
  (chunksOf start_from chunk_size).flatMap (fun c =>
    generate_chunk { area_code := area_code, country_code := country_code,
                     start := c.1, stop := c.2, outfile := "" })

/-- All lines appended for one area code over a whole run of the
PhoneListGenerator3.py (marker) variant. -/
def linesForMarker (country_code area_code : String) (start_from chunk_size : Nat) :
    List String :=
  (chunksOf start_from chunk_size).flatMap (fun c =>
    generate_chunk_marker { area_code := area_code, country_code := country_code,
                            start := c.1, stop := c.2, outfile := "" })

/-- Total number of lines a list of executed tasks writes for the given area
code (each task `t` appends `t.stop - t.start` lines). -/
def countArea (a : String) (tasks : List Task) : Nat :=
  ((tasks.filter (fun t => t.area_code == a)).map (fun t => t.stop - t.start)).sum

/-- Events observed by the main process of PhoneListGenerator3.py: one
iteration of the `executor.map` result loop completing, or SIGINT arriving. -/
inductive Event where
  | chunk_completed
  | interrupt
deriving DecidableEq

/-- Observable state of the controller process: the module-global
`global_start_from`, the offset last written to `progress.json` by
`save_progress` (if any), and whether `sys.exit` has run. -/
structure RunState where
  global_start_from : Nat
  saved : Option Nat
  exited : Bool
deriving DecidableEq

/-- Step function of PhoneListGenerator3.py: each consumed completion runs
`global_start_from += chunk_size` (line 211); SIGINT runs `signal_handler`
(lines 152-156), which calls `save_progress(global_start_from)` and then
`sys.exit(0)`.  After the exit nothing further happens. -/
def stepEvent (chunk_size : Nat) (s : RunState) (e : Event) : RunState :=
  if s.exited then s
  else
    match e with
    | Event.chunk_completed => { s with global_start_from := s.global_start_from + chunk_size }
    | Event.interrupt => { s with saved := some s.global_start_from, exited := true }

/-- Run the PhoneListGenerator3.py controller from offset `start_from` over a
sequence of events. -/
def runEvents (chunk_size start_from : Nat) (events : List Event) : RunState :=
  events.foldl (stepEvent chunk_size) ⟨start_from, none, false⟩

/-- Step function of PhoneListGenerator2.py: its main loop never touches
`global_start_from` (the variable is set once before generation and read only
by `signal_handler`, lines 61-67), so a completion is a no-op in the main
process; SIGINT saves the unchanged value and exits. -/
def stepEvent_v2 (s : RunState) (e : Event) : RunState :=
  if s.exited then s
  else
    match e with
    | Event.chunk_completed => s
    | Event.interrupt => { s with saved := some s.global_start_from, exited := true }

/-- Run the PhoneListGenerator2.py controller from offset `start_from` over a
sequence of events. -/
def runEvents_v2 (start_from : Nat) (events : List Event) : RunState :=
  events.foldl stepEvent_v2 ⟨start_from, none, false⟩

/-- Observable content of the `progress.json` path: absent, present but not
valid JSON, or present with a parsed record of type `α`. -/
inductive ProgressFile (α : Type) where
  | missing
  | malformed
  | valid (data : α)
deriving DecidableEq

/-- The record `save_progress` of PhoneListGenerator3.py / Phonenumber.py
writes: `{"start_from": ..., "state": ..., "output_file": ...}`. -/
structure ProgressData3 where
  start_from : Nat
  state : Option String
  output_file : Option String
deriving DecidableEq

/-- The record `save_progress` of PhoneListGenerator2.py writes:
`{"start": ...}`. -/
structure ProgressData2 where
  start : Nat
deriving DecidableEq

/-- Model of `json.load` applied to the progress path: raises
`FileNotFoundError` when the file is missing and `JSONDecodeError` when its
content is not valid JSON. -/
def json_load {α : Type} : ProgressFile α → Except String α
  | ProgressFile.missing => Except.error "FileNotFoundError"
  | ProgressFile.malformed => Except.error "JSONDecodeError"
  | ProgressFile.valid d => Except.ok d

/-- Embedding of `load_progress` from PhoneListGenerator3.py lines 143-150
(Phonenumber.py lines 145-152 is identical up to the existence test): if the
file does not exist return `None`; otherwise `json.load` inside a bare
`try/except` that turns every exception into `None`. -/
def load_progress (f : ProgressFile ProgressData3) : Option ProgressData3 :=
  if f = ProgressFile.missing then none
  else
    match json_load f with
    | Except.ok d => some d
    | Except.error _ => none

/-- Embedding of `load_progress` from PhoneListGenerator2.py lines 55-59: if
the file does not exist return `None`; otherwise `json.load` with NO
try/except, so a parse failure propagates as an exception. -/
def load_progress_v2 (f : ProgressFile ProgressData2) :
    Except String (Option ProgressData2) :=
  if f = ProgressFile.missing then Except.ok none
  else
    match json_load f with
    | Except.ok d => Except.ok (some d)
    | Except.error e => Except.error e

/-- The identity test of PhoneListGenerator3.py line 184: a loaded record is
offered for resume only when `progress.get("output_file") == str(output_file)`. -/
def honors_resume (p : Option ProgressData3) (output_file : String) : Bool :=
  match p with
  | some d => decide (d.output_file = some output_file)
  | none => false

/-- Model of `Path.touch` on a file whose content is the list of its lines:
creates an empty file when missing, leaves an existing file unchanged. -/
def touch : Option (List String) → Option (List String)
  | none => some []
  | some l => some l

/-- Model of `Path.unlink(missing_ok=True)`: the file is gone afterwards. -/
def unlink_missing_ok (_ : Option (List String)) : Option (List String) := none

/-- Embedding of the output-file setup in PhoneListGenerator3.py `main`
(lines 177-197): `touch` the target; when a matching progress record was
found and the user resumes, keep the file; when the user declines, unlink
and re-touch it; when no record matches, unlink it if it exists and touch. -/
def setup_output_file (initial : Option (List String))
    (progress_matches resume_answer : Bool) : Option (List String) :=
  let f0 := touch initial
  if progress_matches then
    if resume_answer then f0
    else touch (unlink_missing_ok f0)
  else
    touch (if f0.isSome then none else f0)

/-- Appending lines to a file opened with mode `"a"` (created when missing). -/
def append_lines (file : Option (List String)) (new : List String) :
    Option (List String) :=
  match file with
  | some old => some (old ++ new)
  | none => some new

/-- Embedding of the result loop of PhoneListGenerator2.py lines 45-49: each
future's outcome is consumed inside `try/except`, a failure is printed as
`"Error in chunk: ..."` and the loop continues with the remaining futures. -/
def consume_as_completed : List (Except String Unit) → List String
  | [] => []
  | Except.ok _ :: rest => consume_as_completed rest
  | Except.error e :: rest => ("Error in chunk: " ++ e) :: consume_as_completed rest

/-- Embedding of the result loop of PhoneListGenerator3.py lines 207-211:
`for i, _ in enumerate(executor.map(...)):` advances `global_start_from` by
`chunk_size` per successful result; the first failed task re-raises its
exception at the loop head with no handler, ending the loop. -/
def consume_map_loop (chunk_size : Nat) :
    List (Except String Unit) → Nat → Except String Nat
  | [], acc => Except.ok acc
  | Except.ok _ :: rest, acc => consume_map_loop chunk_size rest (acc + chunk_size)
  | Except.error e :: _, _ => Except.error e

/-- Embedding of PhoneListGenerator2.py line 90: the worker-pool size is
`max(int(min_threads), int(max_threads))` of the two user-supplied values. -/
def num_threads (min_threads max_threads : Int) : Int :=
  max min_threads max_threads

/-- Embedding of PhoneListGenerator3.py line 207: the `--threads` value is
passed to `ProcessPoolExecutor(max_workers=...)` unchanged. -/
def max_workers_v3 (threads : Int) : Int := threads

/-- Counting indices against the ceiling-division length of a `pyRange`. -/
lemma lt_ceil_div_iff (cs : Nat) (hcs : 0 < cs) (i d : Nat) :
    i < (d + (cs - 1)) / cs ↔ i * cs < d := by
  rw [Nat.lt_iff_add_one_le, Nat.le_div_iff_mul_le hcs, add_one_mul]
  omega

/-- A `pyRange` starting at or beyond its stop is empty. -/
lemma pyRange_nil (start stop step : Nat) (h : stop ≤ start) :
    pyRange start stop step = [] := by
  unfold pyRange
  have hz : stop - start = 0 := Nat.sub_eq_zero_of_le h
  rw [hz]
  rcases Nat.eq_zero_or_pos step with h0 | h0
  · subst h0; simp
  · rw [Nat.div_eq_of_lt (by omega)]
    simp

/-- Unfolding one step of a nonempty `pyRange`. -/
lemma pyRange_cons (start stop step : Nat) (h : start < stop) (hs : 0 < step) :
    pyRange start stop step = start :: pyRange (start + step) stop step := by
  have key : (stop - start + (step - 1)) / step
      = (stop - (start + step) + (step - 1)) / step + 1 := by
    have l1 : stop - start + (step - 1) = (stop - start - 1) + step := by omega
    rw [l1, Nat.add_div_right _ hs]
    by_cases hds : stop ≤ start + step
    · have e1 : stop - (start + step) = 0 := by omega
      rw [e1, Nat.div_eq_of_lt (by omega), Nat.div_eq_of_lt (by omega)]
    · have e1 : stop - (start + step) + (step - 1) = stop - start - 1 := by omega
      rw [e1]
  unfold pyRange
  rw [key, List.range_succ_eq_map, List.map_cons, List.map_map]
  refine congrArg₂ List.cons (by simp) ?_
  apply List.map_congr_left
  intro i _
  simp [Function.comp, Nat.succ_mul]
  ring

/-- The unit-step `pyRange` is an initial-offset copy of `List.range`. -/
lemma pyRange_one (start stop : Nat) :
    pyRange start stop 1 = (List.range (stop - start)).map (fun i => start + i) := by
  simp [pyRange]

lemma length_pyRange_one (start stop : Nat) :
    (pyRange start stop 1).length = stop - start := by
  simp [pyRange_one]

lemma getElem?_pyRange_one (start stop k : Nat) (h : k < stop - start) :
    (pyRange start stop 1)[k]? = some (start + k) := by
  simp [pyRange_one, h]

/-- The chunk list for one area code is empty when the resume offset has
already reached the end of the space. -/
lemma chunksOf_nil (sf cs : Nat) (h : LIMIT ≤ sf) : chunksOf sf cs = [] := by
  rw [chunksOf, pyRange_nil _ _ _ h]
  rfl

/-- Unfolding the first chunk of a live plan. -/
lemma chunksOf_cons (sf cs : Nat) (h : sf < LIMIT) (hcs : 0 < cs) :
    chunksOf sf cs = (sf, min (sf + cs) LIMIT) :: chunksOf (sf + cs) cs := by
  rw [chunksOf, pyRange_cons _ _ _ h hcs, List.map_cons]
  rfl

/-- Index-level description of the chunk list. -/
lemma chunksOf_getElem? (sf cs : Nat) (hcs : 0 < cs) (i : Nat) :
    (chunksOf sf cs)[i]?
      = if i * cs < LIMIT - sf
        then some (sf + i * cs, min (sf + i * cs + cs) LIMIT) else none := by
  by_cases hi : i * cs < LIMIT - sf
  · have him : i < (LIMIT - sf + (cs - 1)) / cs := (lt_ceil_div_iff cs hcs _ _).mpr hi
    rw [if_pos hi]
    simp [chunksOf, pyRange, him]
  · have him : ¬ i < (LIMIT - sf + (cs - 1)) / cs :=
      fun h => hi ((lt_ceil_div_iff cs hcs _ _).mp h)
    rw [if_neg hi]
    apply List.getElem?_eq_none
    simp [chunksOf, pyRange]
    omega

/-- Membership description of the chunk list. -/
lemma mem_chunksOf (sf cs : Nat) (hcs : 0 < cs) (c : Nat × Nat) :
    c ∈ chunksOf sf cs
      ↔ ∃ i, i * cs < LIMIT - sf
          ∧ c = (sf + i * cs, min (sf + i * cs + cs) LIMIT) := by
  constructor
  · intro hmem
    simp only [chunksOf, pyRange, List.mem_map, List.mem_range] at hmem
    obtain ⟨s, ⟨i, him, rfl⟩, rfl⟩ := hmem
    exact ⟨i, (lt_ceil_div_iff cs hcs _ _).mp him, rfl⟩
  · rintro ⟨i, hi, rfl⟩
    simp only [chunksOf, pyRange, List.mem_map, List.mem_range]
    exact ⟨sf + i * cs, ⟨i, (lt_ceil_div_iff cs hcs _ _).mpr hi, rfl⟩, rfl⟩

/-- Rewriting `task_generator` as prefix-major iteration over `chunksOf`. -/
lemma task_generator_eq (cc : String) (acs : List String) (sf cs : Nat) (f : String) :
    task_generator cc acs sf cs f
      = acs.flatMap (fun a => (chunksOf sf cs).map (fun c =>
          { area_code := a, country_code := cc, start := c.1, stop := c.2,
            outfile := f })) := by
  unfold task_generator chunksOf
  refine congrArg _ (funext fun a => ?_)
  rw [List.map_map]
  exact List.map_congr_left fun s _ => rfl

/-- The concatenated chunk lines are empty once the offset reaches the end. -/
lemma chunkLines_nil (fmt : Nat → String) (sf cs : Nat) (h : LIMIT ≤ sf) :
    chunkLines fmt sf cs = [] := by
  simp [chunkLines, chunksOf_nil sf cs h]

/-- Unfolding the lines of the first chunk. -/
lemma chunkLines_cons (fmt : Nat → String) (sf cs : Nat)
    (h : sf < LIMIT) (hcs : 0 < cs) :
    chunkLines fmt sf cs
      = (pyRange sf (min (sf + cs) LIMIT) 1).map fmt ++ chunkLines fmt (sf + cs) cs := by
  rw [chunkLines, chunksOf_cons sf cs h hcs, List.flatMap_cons]
  rfl

/-- One run's lines for one area code number exactly `LIMIT - start_from`. -/
lemma chunkLines_length (fmt : Nat → String) (cs : Nat) (hcs : 0 < cs) :
    ∀ sf, (chunkLines fmt sf cs).length = LIMIT - sf := by
  have H : ∀ fuel sf, LIMIT - sf ≤ fuel →
      (chunkLines fmt sf cs).length = LIMIT - sf := by
    intro fuel
    induction fuel with
    | zero =>
        intro sf h
        rw [chunkLines_nil fmt sf cs (by omega)]
        simp
        omega
    | succ n ih =>
        intro sf h
        by_cases hlt : sf < LIMIT
        · rw [chunkLines_cons fmt sf cs hlt hcs, List.length_append,
            List.length_map, length_pyRange_one, ih (sf + cs) (by omega)]
          omega
        · rw [chunkLines_nil fmt sf cs (by omega)]
          simp
          omega
  intro sf
  exact H (LIMIT - sf) sf le_rfl

/-- The `n`-th line of one area code's run formats the number `start_from + n`. -/
lemma chunkLines_getElem? (fmt : Nat → String) (cs : Nat) (hcs : 0 < cs) :
    ∀ sf n, sf + n < LIMIT →
      (chunkLines fmt sf cs)[n]? = some (fmt (sf + n)) := by
  have H : ∀ fuel sf n, LIMIT - sf ≤ fuel → sf + n < LIMIT →
      (chunkLines fmt sf cs)[n]? = some (fmt (sf + n)) := by
    intro fuel
    induction fuel with
    | zero => intro sf n h hn; omega
    | succ m ih =>
        intro sf n h hn
        have hlt : sf < LIMIT := by omega
        rw [chunkLines_cons fmt sf cs hlt hcs]
        have hlen : ((pyRange sf (min (sf + cs) LIMIT) 1).map fmt).length
            = min (sf + cs) LIMIT - sf := by
          rw [List.length_map, length_pyRange_one]
        by_cases hfirst : n < min (sf + cs) LIMIT - sf
        · rw [List.getElem?_append_left (by omega)]
          simp only [List.getElem?_map, getElem?_pyRange_one sf _ n hfirst]
          rfl
        · have hmin : min (sf + cs) LIMIT = sf + cs := by omega
          rw [List.getElem?_append_right (by omega)]
          rw [hlen, hmin]
          have hrec := ih (sf + cs) (n - ((sf + cs) - sf)) (by omega) (by omega)
          have harg : sf + cs + (n - (sf + cs - sf)) = sf + n := by omega
          rw [harg] at hrec
          have hidx : n - (sf + cs - sf) = n - cs := by omega
          rw [hidx] at hrec
          simpa using hrec
  intro sf n hn
  exact H (LIMIT - sf) sf n le_rfl hn

/-- The plain-digit line list is an instance of `chunkLines`. -/
lemma linesFor_eq (cc ac : String) (sf cs : Nat) :
    linesFor cc ac sf cs = chunkLines (fun i => cc ++ ac ++ pad7 i ++ "\n") sf cs := rfl

/-- The marker-prefixed line list is an instance of `chunkLines`. -/
lemma linesForMarker_eq (cc ac : String) (sf cs : Nat) :
    linesForMarker cc ac sf cs
      = chunkLines (fun i => "+" ++ cc ++ ac ++ pad7 i ++ "\n") sf cs := rfl

/-- Numbers below `10_000_000` format as exactly 7 characters under `pad7`. -/
lemma pad7_length (i : Nat) (h : i < LIMIT) : (pad7 i).length = 7 := by
  have h7 : (Nat.repr i).length ≤ 7 := by
    apply Nat.repr_length i 7 (by norm_num)
    have : (10 : Nat) ^ 7 = 10000000 := by norm_num
    rw [this]
    exact h
  simp [pad7, String.length_append]
  omega

/-- C1: for every non-empty prefix list, every positive chunk size and every
start offset below 10,000,000, `task_generator` iterates the prefixes in
order and, within each prefix, emits the chunks of `chunksOf` in ascending
start order; the `i`-th chunk is `(start_from + i*chunk_size,
min (start_from + i*chunk_size + chunk_size, 10_000_000))`; every chunk is a
nonempty sub-range of `[start_from, 10_000_000)`; and every point of
`[start_from, 10_000_000)` lies in exactly one chunk (no gaps, no overlaps). -/
theorem task_generator_partition (cc : String) (acs : List String) (sf cs : Nat)
    (f : String) (_hacs : acs ≠ []) (hcs : 0 < cs) (hsf : sf < LIMIT) :
    task_generator cc acs sf cs f
      = acs.flatMap (fun a => (chunksOf sf cs).map (fun c =>
          { area_code := a, country_code := cc, start := c.1, stop := c.2,
            outfile := f })) ∧
    (∀ i : Nat, (chunksOf sf cs)[i]?
        = if i * cs < LIMIT - sf
          then some (sf + i * cs, min (sf + i * cs + cs) LIMIT) else none) ∧
    (∀ c ∈ chunksOf sf cs, sf ≤ c.1 ∧ c.1 < c.2 ∧ c.2 ≤ LIMIT) ∧
    (∀ x : Nat, sf ≤ x → x < LIMIT →
        ∃! c : Nat × Nat, c ∈ chunksOf sf cs ∧ c.1 ≤ x ∧ x < c.2) ∧
    List.Pairwise (fun c d => c.1 < d.1) (chunksOf sf cs) := by
  refine ⟨task_generator_eq cc acs sf cs f, chunksOf_getElem? sf cs hcs, ?_, ?_, ?_⟩
  · intro c hc
    obtain ⟨i, hi, rfl⟩ := (mem_chunksOf sf cs hcs c).mp hc
    refine ⟨Nat.le_add_right _ _, ?_, min_le_right _ _⟩
    simp only
    omega
  · intro x hx1 hx2
    have h1 : (x - sf) / cs * cs ≤ x - sf := Nat.div_mul_le_self _ _
    have h2 := Nat.div_add_mod (x - sf) cs
    have h3 : (x - sf) % cs < cs := Nat.mod_lt _ hcs
    have hcomm : cs * ((x - sf) / cs) = (x - sf) / cs * cs := Nat.mul_comm _ _
    refine ⟨(sf + (x - sf) / cs * cs, min (sf + (x - sf) / cs * cs + cs) LIMIT),
      ⟨?_, ?_, ?_⟩, ?_⟩
    · exact (mem_chunksOf sf cs hcs _).mpr ⟨(x - sf) / cs, by omega, rfl⟩
    · simp only
      omega
    · simp only [lt_min_iff]
      omega
    · rintro c ⟨hcm, hcle, hclt⟩
      obtain ⟨j, hj, rfl⟩ := (mem_chunksOf sf cs hcs c).mp hcm
      simp only [lt_min_iff] at hcle hclt
      have hlt2 : x - sf < (j + 1) * cs := by
        rw [add_one_mul]
        omega
      have hle2 : j * cs ≤ x - sf := by omega
      have hdiv : (x - sf) / cs = j := Nat.div_eq_of_lt_le hle2 hlt2
      rw [hdiv]
  · have hrepr : chunksOf sf cs
        = (List.range ((LIMIT - sf + (cs - 1)) / cs)).map
            (fun i => (sf + i * cs, min (sf + i * cs + cs) LIMIT)) := by
      rw [chunksOf]
      unfold pyRange
      rw [List.map_map]
      exact List.map_congr_left fun s _ => rfl
    rw [hrepr]
    refine List.Pairwise.map _ (fun a b hab => ?_) (List.pairwise_lt_range _)
    simp only
    exact Nat.add_lt_add_left ((Nat.mul_lt_mul_right hcs).mpr hab) sf

/-- Witness for C1: the hypotheses hold at the concrete scenario inputs and
the theorem applies there. -/
theorem task_generator_partition_witness :
    (["212"] : List String) ≠ [] ∧ (0 : Nat) < 1000000 ∧ (0 : Nat) < LIMIT ∧
    List.Pairwise (fun c d => c.1 < d.1) (chunksOf 0 1000000) :=
  ⟨by decide, by decide, by decide,
    (task_generator_partition "1" ["212"] 0 1000000 "out"
      (by decide) (by decide) (by decide)).2.2.2.2⟩

/-- C5: for the single prefix `(country_code="1", area_code="212")` with
`chunk_size = 1_000_000` and `start_from = 0`, the planner yields exactly the
10 chunks `[0,1000000), ..., [9000000,10000000)`; the first generated line is
`12120000000` (`+12120000000` in the marker-prefixed variant) and the
10,000,000-th line (index 9,999,999) is `12129999999`, each newline-terminated. -/
theorem scenario_area_code_212 :
    chunksOf 0 1000000 = [(0, 1000000), (1000000, 2000000), (2000000, 3000000),
      (3000000, 4000000), (4000000, 5000000), (5000000, 6000000),
      (6000000, 7000000), (7000000, 8000000), (8000000, 9000000),
      (9000000, 10000000)] ∧
    (linesFor "1" "212" 0 1000000).length = 10000000 ∧
    (linesFor "1" "212" 0 1000000)[0]? = some "12120000000\n" ∧
    (linesFor "1" "212" 0 1000000)[9999999]? = some "12129999999\n" ∧
    (linesForMarker "1" "212" 0 1000000)[0]? = some "+12120000000\n" ∧
    (linesForMarker "1" "212" 0 1000000)[9999999]? = some "+12129999999\n" := by
  refine ⟨by decide, ?_, ?_, ?_, ?_, ?_⟩
  · rw [linesFor_eq, chunkLines_length _ _ (by decide) 0]
    decide
  · rw [linesFor_eq, chunkLines_getElem? _ _ (by decide) 0 0 (by decide)]
    decide
  · rw [linesFor_eq, chunkLines_getElem? _ _ (by decide) 0 9999999 (by decide)]
    decide
  · rw [linesForMarker_eq, chunkLines_getElem? _ _ (by decide) 0 0 (by decide)]
    decide
  · rw [linesForMarker_eq, chunkLines_getElem? _ _ (by decide) 0 9999999 (by decide)]
    decide

/-- C6: for every run with positive chunk size and start offset below
10,000,000, the number of lines written per prefix is `10_000_000 -
start_from` in both output variants, and the `n`-th line written for a prefix
is the country code, then the area code, then the 7-character zero-padded
decimal suffix `start_from + n`, newline-terminated (with the leading `"+"`
marker in the PhoneListGenerator2/3 variant); suffixes below 10,000,000
always pad to exactly 7 digits. -/
theorem lines_per_area_code (cc ac : String) (sf cs : Nat)
    (hcs : 0 < cs) (_hsf : sf < LIMIT) :
    (linesFor cc ac sf cs).length = LIMIT - sf ∧
    (linesForMarker cc ac sf cs).length = LIMIT - sf ∧
    (∀ n, sf + n < LIMIT →
      (linesFor cc ac sf cs)[n]? = some (cc ++ ac ++ pad7 (sf + n) ++ "\n")) ∧
    (∀ n, sf + n < LIMIT →
      (linesForMarker cc ac sf cs)[n]?
        = some ("+" ++ cc ++ ac ++ pad7 (sf + n) ++ "\n")) ∧
    (∀ i, i < LIMIT → (pad7 i).length = 7) := by
  refine ⟨?_, ?_, ?_, ?_, fun i hi => pad7_length i hi⟩
  · rw [linesFor_eq, chunkLines_length _ _ hcs sf]
  · rw [linesForMarker_eq, chunkLines_length _ _ hcs sf]
  · intro n hn
    rw [linesFor_eq, chunkLines_getElem? _ _ hcs sf n hn]
  · intro n hn
    rw [linesForMarker_eq, chunkLines_getElem? _ _ hcs sf n hn]

/-- Witness for C6: the hypotheses hold at the concrete scenario inputs and
the theorem applies there. -/
theorem lines_per_area_code_witness :
    (0 : Nat) < 1000000 ∧ (0 : Nat) < LIMIT ∧
    (linesFor "1" "212" 0 1000000).length = LIMIT - 0 :=
  ⟨by decide, by decide,
    (lines_per_area_code "1" "212" 0 1000000 (by decide) (by decide)).1⟩

/-- Consuming `k` completions advances `global_start_from` by `k * chunk_size`
and nothing else. -/
lemma foldl_replicate_completed (cs : Nat) :
    ∀ k sf, (List.replicate k Event.chunk_completed).foldl (stepEvent cs)
        ⟨sf, none, false⟩ = ⟨sf + k * cs, none, false⟩ := by
  intro k
  induction k with
  | zero => intro sf; simp
  | succ n ih =>
      intro sf
      rw [List.replicate_succ, List.foldl_cons]
      have hstep : stepEvent cs ⟨sf, none, false⟩ Event.chunk_completed
          = ⟨sf + cs, none, false⟩ := rfl
      rw [hstep, ih (sf + cs)]
      congr 1
      ring

/-- After `sys.exit` the state never changes again. -/
lemma foldl_exited (cs : Nat) :
    ∀ (es : List Event) (s : RunState), s.exited = true →
      es.foldl (stepEvent cs) s = s := by
  intro es
  induction es with
  | nil => intro s _; rfl
  | cons e rest ih =>
      intro s h
      rw [List.foldl_cons]
      have hstep : stepEvent cs s e = s := by
        simp [stepEvent, h]
      rw [hstep]
      exact ih s h

/-- Full description of a PhoneListGenerator3.py run that consumes `k`
completions and is then interrupted: the handler saves `start_from + k *
chunk_size` and exits, and later events are ignored. -/
lemma runEvents_replicate (cs sf k : Nat) (extra : List Event) :
    runEvents cs sf (List.replicate k Event.chunk_completed ++ Event.interrupt :: extra)
      = ⟨sf + k * cs, some (sf + k * cs), true⟩ := by
  rw [runEvents, List.foldl_append, foldl_replicate_completed cs k sf, List.foldl_cons]
  have hstep : stepEvent cs ⟨sf + k * cs, none, false⟩ Event.interrupt
      = ⟨sf + k * cs, some (sf + k * cs), true⟩ := rfl
  rw [hstep]
  exact foldl_exited cs extra _ rfl

/-- The PhoneListGenerator2.py controller ignores completions entirely. -/
lemma runEvents_v2_replicate (sf k : Nat) :
    runEvents_v2 sf (List.replicate k Event.chunk_completed ++ [Event.interrupt])
      = ⟨sf, some sf, true⟩ := by
  have h1 : ∀ k, (List.replicate k Event.chunk_completed).foldl stepEvent_v2
      ⟨sf, none, false⟩ = ⟨sf, none, false⟩ := by
    intro k
    induction k with
    | zero => rfl
    | succ n ih => rw [List.replicate_succ, List.foldl_cons]; exact ih
  rw [runEvents_v2, List.foldl_append, h1, List.foldl_cons]
  rfl

/-- C2 (code bug witness): the model of a two-prefix run of
PhoneListGenerator3.py, interrupted after the first 13 chunk completions are
consumed (all 10 chunks of prefix 212 plus the first 3 chunks of prefix 305,
the most favorable drain), saves the global offset 13,000,000; the resumed
run plans `range(13_000_000, 10_000_000, 1_000_000)`, which is empty for both
prefixes, so prefix 305 ends with 3,000,000 lines instead of the 10,000,000
an uninterrupted run writes. -/
theorem resume_global_offset_loses_lines :
    (runEvents 1000000 0
        (List.replicate 13 Event.chunk_completed ++ [Event.interrupt])).saved
      = some 13000000 ∧
    task_generator "1" ["212", "305"] 13000000 1000000 "f" = [] ∧
    countArea "305"
        ((task_generator "1" ["212", "305"] 0 1000000 "f").take 13
          ++ task_generator "1" ["212", "305"] 13000000 1000000 "f")
      = 3000000 ∧
    countArea "305" (task_generator "1" ["212", "305"] 0 1000000 "f")
      = 10000000 ∧
    (3000000 : Nat) ≠ 10000000 := by
  refine ⟨?_, by decide, by decide, by decide, by decide⟩
  rw [runEvents_replicate 1000000 0 13 []]

/-- C3 counterexample: in PhoneListGenerator2.py the interrupt handler saves
`global_start_from`, but the main process never advances that variable during
generation, so after 3 completed chunks of a run started at offset 0 the
saved offset is 0, not 3,000,000. -/
theorem interrupt_v2_saves_initial_offset :
    (runEvents_v2 0
        (List.replicate 3 Event.chunk_completed ++ [Event.interrupt])).saved
      = some 0 ∧
    (runEvents_v2 0
        (List.replicate 3 Event.chunk_completed ++ [Event.interrupt])).saved
      ≠ some 3000000 := by
  rw [runEvents_v2_replicate 0 3]
  exact ⟨rfl, by decide⟩

/-- C3 (amended): on SIGINT both variants save an offset and exit before
anything else happens; in PhoneListGenerator3.py the saved offset is
`start_from + k * chunk_size` after `k` consumed chunk completions — in the
scenario (chunk_size 1,000,000, start_from 0, 3 of 10 chunks complete) it is
exactly 3,000,000 — while in PhoneListGenerator2.py the saved offset is
always the run's initial `start_from`, regardless of completed chunks. -/
theorem interrupt_saves_offset :
    (∀ sf cs k extra,
      runEvents cs sf (List.replicate k Event.chunk_completed ++ Event.interrupt :: extra)
        = ⟨sf + k * cs, some (sf + k * cs), true⟩) ∧
    (runEvents 1000000 0
        (List.replicate 3 Event.chunk_completed ++ [Event.interrupt])).saved
      = some 3000000 ∧
    (∀ sf k,
      runEvents_v2 sf (List.replicate k Event.chunk_completed ++ [Event.interrupt])
        = ⟨sf, some sf, true⟩) := by
  refine ⟨fun sf cs k extra => runEvents_replicate cs sf k extra, ?_,
    fun sf k => runEvents_v2_replicate sf k⟩
  rw [runEvents_replicate 1000000 0 3 []]

/-- C4 counterexample: `load_progress` of PhoneListGenerator2.py has no
try/except around `json.load`, so a malformed progress file raises instead of
being treated as absent. -/
theorem load_progress_v2_malformed_raises :
    load_progress_v2 ProgressFile.malformed = Except.error "JSONDecodeError" := rfl

/-- C4 (amended): in PhoneListGenerator3.py and Phonenumber.py,
`load_progress` returns absent for a missing or malformed progress file and
never raises, and a loaded record passes the resume identity test exactly
when the file held a valid record whose `output_file` equals the current
output path; PhoneListGenerator2.py's `load_progress` raises on malformed
content and its record carries no identity at all. -/
theorem load_progress_absent_or_identity :
    load_progress ProgressFile.missing = none ∧
    load_progress ProgressFile.malformed = none ∧
    (∀ d, load_progress (ProgressFile.valid d) = some d) ∧
    (∀ (f : ProgressFile ProgressData3) (path : String),
      honors_resume (load_progress f) path = true ↔
        ∃ d, f = ProgressFile.valid d ∧ d.output_file = some path) := by
  refine ⟨rfl, rfl, fun d => rfl, ?_⟩
  intro f path
  cases f with
  | missing => simp [load_progress, honors_resume]
  | malformed => simp [load_progress, json_load, honors_resume]
  | valid d =>
      simp [load_progress, json_load, honors_resume]

/-- Witness for the identity direction of the C4 amended theorem at a
concrete record. -/
theorem load_progress_absent_or_identity_witness :
    honors_resume
      (load_progress (ProgressFile.valid ⟨0, none, some "out"⟩)) "out" = true :=
  (load_progress_absent_or_identity.2.2.2
      (ProgressFile.valid ⟨0, none, some "out"⟩) "out").mpr
    ⟨⟨0, none, some "out"⟩, rfl, rfl⟩

/-- C7 counterexample: in PhoneListGenerator3.py a failed chunk re-raises at
the `executor.map` result loop with no handler: with three tasks whose second
fails, the loop ends as an uncaught exception after crediting only the first
chunk, instead of reporting a per-chunk error and continuing (all three
succeeding would have credited 3,000,000); PhoneListGenerator2.py's loop
reports the failure and keeps going. -/
theorem map_loop_aborts_on_failure :
    consume_map_loop 1000000
        [Except.ok (), Except.error "write error", Except.ok ()] 0
      = Except.error "write error" ∧
    consume_map_loop 1000000 [Except.ok (), Except.ok (), Except.ok ()] 0
      = Except.ok 3000000 ∧
    consume_as_completed [Except.ok (), Except.error "write error", Except.ok ()]
      = ["Error in chunk: write error"] :=
  ⟨rfl, rfl, rfl⟩

/-- C7 (amended): in PhoneListGenerator2.py every task failure is caught in
the `as_completed` loop and reported as a per-chunk error, and all remaining
futures are still consumed; in PhoneListGenerator3.py the first failure
propagates out of the result loop immediately. -/
theorem as_completed_reports_each_error :
    (∀ (pre post : List (Except String Unit)) (e : String),
      consume_as_completed (pre ++ Except.error e :: post)
        = consume_as_completed pre
            ++ ("Error in chunk: " ++ e) :: consume_as_completed post) ∧
    (∀ (cs : Nat) (post : List (Except String Unit)) (e : String) (acc : Nat),
      consume_map_loop cs (Except.error e :: post) acc = Except.error e) := by
  refine ⟨?_, fun cs post e acc => rfl⟩
  intro pre post e
  induction pre with
  | nil => rfl
  | cons r rest ih =>
      cases r with
      | ok u => simpa [consume_as_completed] using ih
      | error e2 => simpa [consume_as_completed] using ih

/-- C8 counterexample: with both thread inputs 0, PhoneListGenerator2.py's
pool size `max(min_threads, max_threads)` is 0, not clamped to at least 1. -/
theorem num_threads_zero_not_clamped :
    num_threads 0 0 = 0 ∧ ¬ (1 ≤ num_threads 0 0) := by
  constructor
  · rfl
  · decide

/-- C8 (amended): the effective pool size is not clamped anywhere: in
PhoneListGenerator2.py it is `max(min_threads, max_threads)`, which is at
least 1 exactly when at least one of the two user inputs is, and in
PhoneListGenerator3.py the `--threads` value reaches
`ProcessPoolExecutor(max_workers=...)` unchanged, so a nonpositive setting
makes the pool constructor fail. -/
theorem num_threads_pos_iff :
    (∀ a b : Int, 1 ≤ num_threads a b ↔ 1 ≤ a ∨ 1 ≤ b) ∧
    (∀ t : Int, max_workers_v3 t = t) :=
  ⟨fun _ _ => le_max_iff, fun _ => rfl⟩

/-- Witness for the C8 amended theorem at concrete inputs. -/
theorem num_threads_pos_iff_witness : 1 ≤ num_threads 4 2 :=
  (num_threads_pos_iff.1 4 2).mpr (Or.inl (by norm_num))

/-- C9: whenever a run does not resume (no matching progress record, or the
user declines), the output-file setup of `main` leaves an empty file
whatever existed before, so the completed run's file holds exactly the lines
written by the current run. -/
theorem fresh_run_output_only_current (init : Option (List String)) (pm ra : Bool)
    (written : List String) (h : pm = false ∨ ra = false) :
    setup_output_file init pm ra = some [] ∧
    append_lines (setup_output_file init pm ra) written = some written := by
  have hs : setup_output_file init pm ra = some [] := by
    cases pm with
    | false => cases init <;> simp [setup_output_file, touch, unlink_missing_ok]
    | true =>
        have hra : ra = false := by
          rcases h with h | h
          · exact absurd h (by simp)
          · exact h
        subst hra
        cases init <;> simp [setup_output_file, touch, unlink_missing_ok]
  refine ⟨hs, ?_⟩
  rw [hs]
  simp [append_lines]

/-- Witness for C9: a pre-existing non-empty file with a matching progress
record that the user declines to resume is truncated before writing. -/
theorem fresh_run_output_only_current_witness :
    (true = false ∨ false = false) ∧
    append_lines (setup_output_file (some ["old"]) true false) ["a", "b"]
      = some ["a", "b"] :=
  ⟨Or.inr rfl,
    (fresh_run_output_only_current (some ["old"]) true false ["a", "b"]
        (Or.inr rfl)).2⟩

/-- C10: a start offset at or beyond 10,000,000 makes `task_generator` yield
no tasks at all (hence zero lines are written), and this state is reachable
on resume: the PhoneListGenerator3.py controller advances its offset by
`chunk_size` for every consumed completion across all prefixes, so a
two-prefix run interrupted after 13 consumed chunks of size 1,000,000 saves
the offset 13,000,000 ≥ 10,000,000. -/
theorem start_from_beyond_limit_plans_nothing :
    (∀ (cc : String) (acs : List String) (sf cs : Nat) (f : String),
      LIMIT ≤ sf →
        task_generator cc acs sf cs f = [] ∧
        (task_generator cc acs sf cs f).flatMap generate_chunk = []) ∧
    (runEvents 1000000 0
        (List.replicate 13 Event.chunk_completed ++ [Event.interrupt])).saved
      = some 13000000 ∧
    LIMIT ≤ 13000000 := by
  refine ⟨?_, ?_, by decide⟩
  · intro cc acs sf cs f h
    have hnil : task_generator cc acs sf cs f = [] := by
      unfold task_generator
      rw [pyRange_nil sf LIMIT cs h]
      simp
    exact ⟨hnil, by rw [hnil]; rfl⟩
  · rw [runEvents_replicate 1000000 0 13 []]

/-- Witness for C10: the hypothesis holds at the saved offset the scenario
produces, and the theorem applies there. -/
theorem start_from_beyond_limit_plans_nothing_witness :
    LIMIT ≤ 13000000 ∧ task_generator "1" ["212", "305"] 13000000 1000000 "f" = [] :=
  ⟨by decide,
    (start_from_beyond_limit_plans_nothing.1 "1" ["212", "305"] 13000000 1000000 "f"
        (by decide)).1⟩

end PhoneList
